import Mathlib

/-!
PomPom: the timer / mode state machine and its settings store

A shallow embedding of `src/index.js`.  The module-level variables of the
program (`isRunning`, `timerId`, `currentMode`, `currentDurations`,
`currentTime`, `completedFocus`, `autoSwitch`) become the fields of one record,
`Engine`.  The parts of the Node runtime the program talks to are made explicit
in the same record:

* `intervals`  : the handles of the `setInterval` timers that are still live;
* `timeouts`   : the number of pending `setTimeout(() => startTimer(), 1000)`;
* `nextHandle` : the next fresh timer handle;
* `file`       : the content of `~/.pompom/settings.json` (`none`: no file).

JavaScript numbers are modelled by `Int` (durations, seconds and counters stay
far inside the exact integer range of a double).  Rendering (`blessed`,
`figlet`), status strings and `playSound` do not feed back into the state and
are left out.  The clock read by `new Date()` is an explicit argument `now`.
-/

namespace PomPom

/-! ## Data model -/

/-- The keys of the `MODES` table (lines 66-70). -/
inductive Mode where
  | FOCUS
  | SHORT_BREAK
  | LONG_BREAK
  deriving DecidableEq, Repr

/-- The `nextMode` entry of each row of `MODES` (lines 67-69). -/
def Mode.nextMode : Mode → Mode
  | Mode.FOCUS => Mode.SHORT_BREAK
  | Mode.SHORT_BREAK => Mode.FOCUS
  | Mode.LONG_BREAK => Mode.FOCUS

/-- The `durations` object: minutes per mode. -/
structure Durations where
  FOCUS : Int
  SHORT_BREAK : Int
  LONG_BREAK : Int
  deriving DecidableEq, Repr

/-- Property read `currentDurations[modeKey]`. -/
def Durations.get (d : Durations) : Mode → Int
  | Mode.FOCUS => d.FOCUS
  | Mode.SHORT_BREAK => d.SHORT_BREAK
  | Mode.LONG_BREAK => d.LONG_BREAK

/-- Property write `currentDurations[modeKey] = v`. -/
def Durations.set (d : Durations) (m : Mode) (v : Int) : Durations :=
  match m with
  | Mode.FOCUS => { d with FOCUS := v }
  | Mode.SHORT_BREAK => { d with SHORT_BREAK := v }
  | Mode.LONG_BREAK => { d with LONG_BREAK := v }

/-- The record serialised into `settings.json` by `saveSettings`. -/
structure Settings where
  durations : Durations
  autoSwitch : Bool
  completedFocus : Int
  lastUsed : Nat
  deriving DecidableEq, Repr

/-- The program state together with the timers and the settings file. -/
structure Engine where
  isRunning : Bool
  timerId : Option Nat
  currentMode : Mode
  currentDurations : Durations
  currentTime : Int
  completedFocus : Int
  autoSwitch : Bool
  intervals : List Nat
  timeouts : Nat
  nextHandle : Nat
  file : Option Settings
  deriving DecidableEq, Repr

/-! ## SettingsStore -/

/-- Function `saveSettings` (lines 44-53), with the write succeeding: stamps `lastUsed`
with the current time and replaces the file content. -/
def saveSettings (now : Nat) (settings : Settings) (s : Engine) : Engine :=
  { s with file := some { settings with lastUsed := now } }

/-- Function `updateSettings` (lines 265-270): copies the three durable variables into
the settings object and saves it. -/
def updateSettings (now : Nat) (s : Engine) : Engine :=
  saveSettings now
    { durations := s.currentDurations
      autoSwitch := s.autoSwitch
      completedFocus := s.completedFocus
      lastUsed := now } s

/-! ## Timers of the runtime -/

/-- Runtime call `clearInterval(timerId)`: the timer named by the handle stops being live;
a `null` or stale handle is ignored. -/
def clearInterval (h : Option Nat) (s : Engine) : Engine :=
  match h with
  | none => s
  | some i => { s with intervals := s.intervals.filter (fun j => j ≠ i) }

/-! ## TimerEngine -/

/-- Function `switchMode(mode, resetTimer = true)` (lines 273-293). -/
def switchMode (now : Nat) (mode : Mode) (resetTimer : Bool) (s : Engine) : Engine :=
  let s1 := clearInterval s.timerId s
  let s2 := { s1 with isRunning := false }
  let s3 := { s2 with currentMode := mode }
  let s4 := if resetTimer then { s3 with currentTime := s3.currentDurations.get mode * 60 } else s3
  updateSettings now s4

/-- Function `resetToDefaultDuration` (lines 222-254). -/
def resetToDefaultDuration (now : Nat) (s : Engine) : Engine :=
  let defaultDuration : Int :=
    if s.currentMode = Mode.FOCUS then 25
    else if s.currentMode = Mode.SHORT_BREAK then 5
    else if s.currentMode = Mode.LONG_BREAK then 15
    else 25
  let s1 := { s with currentDurations := s.currentDurations.set s.currentMode defaultDuration }
  let s2 := { s1 with currentTime := defaultDuration * 60 }
  updateSettings now s2

/-- Function `changeDuration(change)` (lines 296-314). -/
def changeDuration (now : Nat) (change : Int) (s : Engine) : Engine :=
  let newDuration := s.currentDurations.get s.currentMode + change
  let newDuration := if newDuration < 1 then 1 else newDuration
  let s1 := { s with currentDurations := s.currentDurations.set s.currentMode newDuration }
  let s2 := { s1 with currentTime := newDuration * 60 }
  updateSettings now s2

/-- Function `startTimer` (lines 317-363), the part that runs at the call: the guard on
`isRunning` and the arming of a new interval timer. -/
def startTimer (s : Engine) : Engine :=
  if s.isRunning then s
  else
    { s with
      isRunning := true
      timerId := some s.nextHandle
      intervals := s.nextHandle :: s.intervals
      nextHandle := s.nextHandle + 1 }

/-- The callback handed to `setInterval` in `startTimer` (lines 323-362): one
tick. -/
def intervalCallback (now : Nat) (s : Engine) : Engine :=
  let s1 := { s with currentTime := s.currentTime - 1 }
  if s1.currentTime ≤ 0 then
    let s2 := clearInterval s1.timerId s1
    let s3 := { s2 with isRunning := false }
    let s4 :=
      if s3.currentMode = Mode.FOCUS then
        updateSettings now { s3 with completedFocus := s3.completedFocus + 1 }
      else s3
    if s4.autoSwitch then
      let nextModeKey := s4.currentMode.nextMode
      let s5 :=
        if s4.currentMode = Mode.FOCUS ∧ s4.completedFocus.tmod 4 = 0 then
          switchMode now Mode.LONG_BREAK true s4
        else
          switchMode now nextModeKey true s4
      { s5 with timeouts := s5.timeouts + 1 }
    else s4
  else s1

/-- Function `pauseTimer` (lines 366-372). -/
def pauseTimer (s : Engine) : Engine :=
  if !s.isRunning then s
  else
    let s1 := clearInterval s.timerId s
    { s1 with isRunning := false }

/-- Function `resetTimer` (lines 375-387). -/
def resetTimer (s : Engine) : Engine :=
  let s1 := clearInterval s.timerId s
  let s2 := { s1 with isRunning := false }
  { s2 with currentTime := s2.currentDurations.get s2.currentMode * 60 }

/-- Function `toggleAutoSwitch` (lines 425-431). -/
def toggleAutoSwitch (now : Nat) (s : Engine) : Engine :=
  updateSettings now { s with autoSwitch := !s.autoSwitch }

/-- Function `clearStats` (lines 434-444). -/
def clearStats (now : Nat) (s : Engine) : Engine :=
  updateSettings now { s with completedFocus := 0 }

/-! ## Events of the single timeline -/

/-- What can happen next: a user command (the key bindings of lines 453-495
call these functions), a live interval timer firing, or a pending deferred
start firing. -/
inductive Event where
  | start
  | pause
  | tick (h : Nat)
  | deferredStart
  | switchMode (m : Mode)
  | resetTimer
  | resetToDefault
  | changeDuration (d : Int)
  | toggleAutoSwitch
  | clearStats
  deriving DecidableEq, Repr

/-- One event handled at clock reading `now`.  An interval timer fires only
while its handle is live, the deferred start only while one is pending; the
key bindings for the modes call `switchMode` with its default
`resetTimer = true`. -/
def step (now : Nat) (e : Event) (s : Engine) : Engine :=
  match e with
  | Event.start => startTimer s
  | Event.pause => pauseTimer s
  | Event.tick h => if h ∈ s.intervals then intervalCallback now s else s
  | Event.deferredStart =>
      if 0 < s.timeouts then startTimer { s with timeouts := s.timeouts - 1 } else s
  | Event.switchMode m => switchMode now m true s
  | Event.resetTimer => resetTimer s
  | Event.resetToDefault => resetToDefaultDuration now s
  | Event.changeDuration d => changeDuration now d s
  | Event.toggleAutoSwitch => toggleAutoSwitch now s
  | Event.clearStats => clearStats now s

/-- A finite history: each event with the clock reading at which it is
handled. -/
def run (evs : List (Nat × Event)) (s : Engine) : Engine :=
  evs.foldl (fun acc e => step e.1 e.2 acc) s

/-- Values produced by `JSON.parse` (numbers restricted to integers). -/
inductive Json where
  | null
  | bool (b : Bool)
  | num (n : Int)
  | str (s : String)
  | arr (items : List Json)
  | obj (fields : List (String × Json))

/-- Property read `value.key`; `none` is `undefined`. -/
def Json.field (k : String) : Json → Option Json
  | Json.obj fields => fields.lookup k
  | _ => none

/-- Constant `defaultSettings` (lines 19-28); `loadTime` is the ISO string of the
clock reading when the module is loaded. -/
def defaultSettings (loadTime : String) : Json :=
  Json.obj
    [ ("durations",
        Json.obj
          [ ("FOCUS", Json.num 25),
            ("SHORT_BREAK", Json.num 5),
            ("LONG_BREAK", Json.num 15) ]),
      ("autoSwitch", Json.bool true),
      ("completedFocus", Json.num 0),
      ("lastUsed", Json.str loadTime) ]

/-- What `fs` finds at the settings location: nothing, something that exists
but whose read throws, or a file with the given text. -/
inductive FileState where
  | absent
  | unreadable (error : String)
  | content (data : String)

/-- Runtime call `fs.existsSync(settingsFile)`. -/
def existsSync : FileState → Bool
  | FileState.absent => false
  | _ => true

/-- Runtime call `fs.readFileSync(settingsFile, "utf8")`; `Except.error` is a throw. -/
def readFileSync : FileState → Except String String
  | FileState.absent => Except.error "ENOENT"
  | FileState.unreadable e => Except.error e
  | FileState.content data => Except.ok data

/-- Function `loadSettings` (lines 31-41).  `parse` is `JSON.parse`, with
`Except.error` for a throw; the result is `Except.ok v` when the function
returns `v` and would be `Except.error` if an exception escaped it. -/
def loadSettings (parse : String → Except String Json) (loadTime : String)
    (fs : FileState) : Except String Json :=
  let tryBlock : Except String (Option Json) :=
    if existsSync fs then
      match readFileSync fs with
      | Except.error e => Except.error e
      | Except.ok data =>
        match parse data with
        | Except.error e => Except.error e
        | Except.ok v => Except.ok (some v)
    else Except.ok none
  match tryBlock with
  | Except.ok (some v) => Except.ok v
  | Except.ok none => Except.ok (defaultSettings loadTime)
  | Except.error _ => Except.ok (defaultSettings loadTime)

/-- Reads `settings.durations` as three integer minute counts. -/
def Json.toDurations (j : Json) : Option Durations :=
  match j.field "durations" with
  | some d =>
    match d.field "FOCUS", d.field "SHORT_BREAK", d.field "LONG_BREAK" with
    | some (Json.num f), some (Json.num sb), some (Json.num lb) =>
      some { FOCUS := f, SHORT_BREAK := sb, LONG_BREAK := lb }
    | _, _, _ => none
  | none => none

/-- Expression `settings.completedFocus || 0` (line 78) on an integer or missing field. -/
def Json.toCompletedFocus (j : Json) : Option Int :=
  match j.field "completedFocus" with
  | none => some 0
  | some (Json.num n) => some n
  | some _ => none

/-- Expression `settings.autoSwitch !== undefined ? settings.autoSwitch : true` (line 79)
on a boolean or missing field. -/
def Json.toAutoSwitch (j : Json) : Option Bool :=
  match j.field "autoSwitch" with
  | none => some true
  | some (Json.bool b) => some b
  | some _ => none

/-- The state after the module has loaded (lines 73-79) from the settings
object `settings`, with `file` on disk.  `none` when the settings object does
not have the documented shape. -/
def boot (settings : Json) (file : Option Settings) : Option Engine :=
  match settings.toDurations, settings.toCompletedFocus, settings.toAutoSwitch with
  | some durations, some completed, some auto =>
    some
      { isRunning := false
        timerId := none
        currentMode := Mode.FOCUS
        currentDurations := durations
        currentTime := durations.FOCUS * 60
        completedFocus := completed
        autoSwitch := auto
        intervals := []
        timeouts := 0
        nextHandle := 0
        file := file }
  | _, _, _ => none

/-! ## Observations used in the statements -/

/-- The built-in default duration of each mode in the words of the spec
(FOCUS = 25, SHORT_BREAK = 5, LONG_BREAK = 15 minutes); compared with what
`resetToDefaultDuration` computes. -/
def builtinDefault : Mode → Int
  | Mode.FOCUS => 25
  | Mode.SHORT_BREAK => 5
  | Mode.LONG_BREAK => 15

/-- A running FOCUS interval in its last second, three sessions completed so
far, auto-switch on. -/
def lastSecondOfFourthFocus : Engine :=
  { isRunning := true
    timerId := some 0
    currentMode := Mode.FOCUS
    currentDurations := { FOCUS := 25, SHORT_BREAK := 5, LONG_BREAK := 15 }
    currentTime := 1
    completedFocus := 3
    autoSwitch := true
    intervals := [0]
    timeouts := 0
    nextHandle := 1
    file := none }

/-- A load time for the examples. -/
def sampleLoadTime : String := "2024-01-01T00:00:00.000Z"

/-- The initial state of a first run: no settings file, default settings
loaded. -/
def freshInstall : Engine :=
  { isRunning := false
    timerId := none
    currentMode := Mode.FOCUS
    currentDurations := { FOCUS := 25, SHORT_BREAK := 5, LONG_BREAK := 15 }
    currentTime := 1500
    completedFocus := 0
    autoSwitch := true
    intervals := []
    timeouts := 0
    nextHandle := 0
    file := none }

/-- A running SHORT_BREAK interval of one minute in its last second, auto-switch
on, the settings file written at clock reading 2 and in step with memory. -/
def lastSecondOfBreak : Engine :=
  { isRunning := true
    timerId := some 0
    currentMode := Mode.SHORT_BREAK
    currentDurations := { FOCUS := 25, SHORT_BREAK := 1, LONG_BREAK := 15 }
    currentTime := 1
    completedFocus := 0
    autoSwitch := true
    intervals := [0]
    timeouts := 0
    nextHandle := 1
    file := some
      { durations := { FOCUS := 25, SHORT_BREAK := 1, LONG_BREAK := 15 }
        autoSwitch := true
        completedFocus := 0
        lastUsed := 2 } }

/-- A history from the first run that reaches `lastSecondOfBreak`: switch to
SHORT_BREAK, shorten it to one minute, start, 59 ticks. -/
def historyToLastSecondOfBreak : List (Nat × Event) :=
  [(1, Event.switchMode Mode.SHORT_BREAK), (2, Event.changeDuration (-4)), (3, Event.start)]
    ++ List.replicate 59 (4, Event.tick 0)

/-- A history from the first run: auto-switch off, FOCUS shortened to one
minute, start, the 60 ticks of the interval, then start again and one tick. -/
def restartAfterCompletion : List (Nat × Event) :=
  [(1, Event.toggleAutoSwitch), (2, Event.changeDuration (-24)), (3, Event.start)]
    ++ List.replicate 60 (4, Event.tick 0)
    ++ [(5, Event.start), (6, Event.tick 1)]

/-- An auto-switch completion, then `pause`, then the deferred start firing. -/
def pauseDuringDelay : List (Nat × Event) :=
  [(7, Event.tick 0), (8, Event.pause), (9, Event.deferredStart)]

/-- The three fields of the state that are meant to survive a restart. -/
def durable (s : Engine) : Durations × Bool × Int :=
  (s.currentDurations, s.autoSwitch, s.completedFocus)

/-- The same three fields as found in the settings file. -/
def persisted (s : Engine) : Option (Durations × Bool × Int) :=
  s.file.map (fun r => (r.durations, r.autoSwitch, r.completedFocus))

/-- The settings file holds the in-memory durable fields. -/
def synced (s : Engine) : Prop :=
  persisted s = some (durable s)

instance (s : Engine) : Decidable (synced s) := by
  unfold synced
  infer_instance

/-- The tick-source bookkeeping is consistent: the live interval timers are
exactly the one named by `timerId` when running and none otherwise, and every
live handle is older than the next fresh one. -/
def tickInv (s : Engine) : Prop :=
  (s.isRunning = true → ∃ h, s.timerId = some h ∧ s.intervals = [h]) ∧
  (s.isRunning = false → s.intervals = []) ∧
  (∀ h ∈ s.intervals, h < s.nextHandle)


/-! ## Helper lemmas -/

theorem Durations.get_set (ds : Durations) (m k : Mode) (v : Int) :
    (ds.set m v).get k = if k = m then v else ds.get k := by
  cases m <;> cases k <;> simp [Durations.set, Durations.get]

/-- C10: `resetToDefault()` sets the current mode's duration to its built-in
default (25, 5 or 15), sets the remaining seconds to 60 times that default, and
leaves the other modes' durations, the mode, `completedFocus` and `autoSwitch`
as they were. -/
theorem resetToDefaultDuration_spec (now : Nat) (s : Engine) :
    (resetToDefaultDuration now s).currentDurations.get s.currentMode
        = builtinDefault s.currentMode ∧
    (resetToDefaultDuration now s).currentTime = 60 * builtinDefault s.currentMode ∧
    (∀ m, (resetToDefaultDuration now s).currentDurations.get m
        = if m = s.currentMode then builtinDefault s.currentMode
          else s.currentDurations.get m) ∧
    (resetToDefaultDuration now s).currentMode = s.currentMode ∧
    (resetToDefaultDuration now s).completedFocus = s.completedFocus ∧
    (resetToDefaultDuration now s).autoSwitch = s.autoSwitch := by
  have hd : (if s.currentMode = Mode.FOCUS then (25 : Int)
      else if s.currentMode = Mode.SHORT_BREAK then 5
      else if s.currentMode = Mode.LONG_BREAK then 15 else 25)
      = builtinDefault s.currentMode := by
    cases s.currentMode <;> simp [builtinDefault]
  refine ⟨?_, ?_, ?_, ?_, ?_, ?_⟩ <;>
    simp [resetToDefaultDuration, updateSettings, saveSettings, hd,
      Durations.get_set, mul_comm]

/-! ## One tick -/

/-- C8: `loadSettings` never lets an exception escape; it returns the parsed
value when the file exists, can be read and parses, and the default record
(durations 25 / 5 / 15, `autoSwitch = true`, `completedFocus = 0`) when the file
is absent, cannot be read or does not parse. -/
theorem loadSettings_spec (parse : String → Except String Json) (loadTime : String)
    (fs : FileState) :
    loadSettings parse loadTime fs
      = (match fs with
        | FileState.absent => Except.ok (defaultSettings loadTime)
        | FileState.unreadable _ => Except.ok (defaultSettings loadTime)
        | FileState.content data =>
          match parse data with
          | Except.ok v => Except.ok v
          | Except.error _ => Except.ok (defaultSettings loadTime)) ∧
    (defaultSettings loadTime).toDurations
      = some { FOCUS := 25, SHORT_BREAK := 5, LONG_BREAK := 15 } ∧
    (defaultSettings loadTime).toAutoSwitch = some true ∧
    (defaultSettings loadTime).toCompletedFocus = some 0 := by
  refine ⟨?_, rfl, rfl, rfl⟩
  cases fs with
  | absent => rfl
  | unreadable e => rfl
  | content data =>
    simp only [loadSettings, existsSync, readFileSync]
    cases parse data <;> rfl

/-! ## The tick source -/

theorem clearInterval_intervals_of_tickInv (s : Engine) (hinv : tickInv s) :
    (clearInterval s.timerId s).intervals = [] := by
  obtain ⟨hr, hn, _⟩ := hinv
  cases hrun : s.isRunning with
  | false =>
    have hnil := hn hrun
    cases htid : s.timerId <;> simp [clearInterval, hnil]
  | true =>
    obtain ⟨h, ht, hi⟩ := hr hrun
    simp [clearInterval, ht, hi]

theorem tickInv_of_stopped (s : Engine) (hrun : s.isRunning = false)
    (hint : s.intervals = []) : tickInv s := by
  refine ⟨?_, fun _ => hint, ?_⟩
  · intro h
    rw [hrun] at h
    cases h
  · intro h hh
    rw [hint] at hh
    cases hh

theorem tickInv_of_frame (s t : Engine) (hinv : tickInv s)
    (h1 : t.isRunning = s.isRunning) (h2 : t.timerId = s.timerId)
    (h3 : t.intervals = s.intervals) (h4 : t.nextHandle = s.nextHandle) : tickInv t := by
  unfold tickInv at *
  rw [h1, h2, h3, h4]
  exact hinv

theorem tickInv_startTimer (s : Engine) (hinv : tickInv s) : tickInv (startTimer s) := by
  unfold startTimer
  cases hrun : s.isRunning with
  | true => simpa using hinv
  | false =>
    have hnil := hinv.2.1 hrun
    simp [tickInv, hnil]

theorem tickInv_pauseTimer (s : Engine) (hinv : tickInv s) : tickInv (pauseTimer s) := by
  unfold pauseTimer
  cases hrun : s.isRunning with
  | false => simpa using hinv
  | true =>
    apply tickInv_of_stopped
    · simp
    · simpa using clearInterval_intervals_of_tickInv s hinv

theorem tickInv_switchMode (now : Nat) (m : Mode) (r : Bool) (s : Engine)
    (hinv : tickInv s) : tickInv (switchMode now m r s) := by
  apply tickInv_of_stopped
  · cases r <;> simp [switchMode, updateSettings, saveSettings]
  · have h := clearInterval_intervals_of_tickInv s hinv
    cases r <;> simpa [switchMode, updateSettings, saveSettings] using h

theorem tickInv_resetTimer (s : Engine) (hinv : tickInv s) : tickInv (resetTimer s) := by
  apply tickInv_of_stopped
  · simp [resetTimer]
  · simpa [resetTimer] using clearInterval_intervals_of_tickInv s hinv

theorem intervalCallback_not_expired (now : Nat) (s : Engine) (h : ¬ s.currentTime - 1 ≤ 0) :
    intervalCallback now s = { s with currentTime := s.currentTime - 1 } := by
  simp [intervalCallback, h]

theorem intervalCallback_expired (now : Nat) (s : Engine) (h : s.currentTime - 1 ≤ 0) :
    (intervalCallback now s).isRunning = false ∧
    (intervalCallback now s).intervals = (clearInterval s.timerId s).intervals ∧
    (intervalCallback now s).timerId = s.timerId ∧
    (intervalCallback now s).nextHandle = s.nextHandle := by
  unfold intervalCallback
  by_cases hm : s.currentMode = Mode.FOCUS <;>
    by_cases ha : s.autoSwitch = true <;>
    by_cases h4 : (s.completedFocus + 1).tmod 4 = 0 <;>
    cases htid : s.timerId <;>
    simp [h, hm, ha, h4, htid, switchMode, updateSettings, saveSettings, clearInterval,
      List.filter_filter]

theorem tickInv_intervalCallback (now : Nat) (s : Engine) (hinv : tickInv s) :
    tickInv (intervalCallback now s) := by
  by_cases h : s.currentTime - 1 ≤ 0
  · obtain ⟨h1, h2, _, _⟩ := intervalCallback_expired now s h
    exact tickInv_of_stopped _ h1 (h2.trans (clearInterval_intervals_of_tickInv s hinv))
  · rw [intervalCallback_not_expired now s h]
    exact tickInv_of_frame s _ hinv rfl rfl rfl rfl

theorem tickInv_step (now : Nat) (e : Event) (s : Engine) (hinv : tickInv s) :
    tickInv (step now e s) := by
  cases e with
  | start => exact tickInv_startTimer s hinv
  | pause => exact tickInv_pauseTimer s hinv
  | tick h =>
    simp only [step]
    split_ifs
    · exact tickInv_intervalCallback now s hinv
    · exact hinv
  | deferredStart =>
    simp only [step]
    split_ifs
    · exact tickInv_startTimer _ (tickInv_of_frame s _ hinv rfl rfl rfl rfl)
    · exact hinv
  | switchMode m => exact tickInv_switchMode now m true s hinv
  | resetTimer => exact tickInv_resetTimer s hinv
  | resetToDefault => exact tickInv_of_frame s _ hinv rfl rfl rfl rfl
  | changeDuration d => exact tickInv_of_frame s _ hinv rfl rfl rfl rfl
  | toggleAutoSwitch => exact tickInv_of_frame s _ hinv rfl rfl rfl rfl
  | clearStats => exact tickInv_of_frame s _ hinv rfl rfl rfl rfl

theorem run_cons (e : Nat × Event) (evs : List (Nat × Event)) (s : Engine) :
    run (e :: evs) s = run evs (step e.1 e.2 s) := rfl

theorem run_append (a b : List (Nat × Event)) (s : Engine) :
    run (a ++ b) s = run b (run a s) := by
  simp [run, List.foldl_append]

theorem tickInv_run (evs : List (Nat × Event)) (s : Engine) (hinv : tickInv s) :
    tickInv (run evs s) := by
  induction evs generalizing s with
  | nil => exact hinv
  | cons e evs ih =>
    rw [run_cons]
    exact ih _ (tickInv_step e.1 e.2 s hinv)

theorem tickInv_boot (settings : Json) (file : Option Settings) (s0 : Engine)
    (hboot : boot settings file = some s0) : tickInv s0 := by
  unfold boot at hboot
  split at hboot
  · cases hboot
    exact tickInv_of_stopped _ rfl rfl
  · cases hboot

theorem startTimer_idem (s : Engine) : startTimer (startTimer s) = startTimer s := by
  unfold startTimer
  cases hrun : s.isRunning <;> simp [hrun]

/-- C7: in every state reached from the initial state by any interleaving of
commands, interval firings and deferred-start firings, at most one interval
timer is live, one is live exactly when `isRunning` is true, and a second
`start` right after a `start` changes nothing. -/
theorem single_tick_source (settings : Json) (file : Option Settings) (s0 : Engine)
    (evs : List (Nat × Event)) (n1 n2 : Nat) (hboot : boot settings file = some s0) :
    (run evs s0).intervals.length ≤ 1 ∧
    ((run evs s0).intervals.length = 1 ↔ (run evs s0).isRunning = true) ∧
    run (evs ++ [(n1, Event.start), (n2, Event.start)]) s0
      = run (evs ++ [(n1, Event.start)]) s0 := by
  have hinv := tickInv_run evs s0 (tickInv_boot settings file s0 hboot)
  obtain ⟨hr, hn, _⟩ := hinv
  refine ⟨?_, ?_, ?_⟩
  · cases hrun : (run evs s0).isRunning with
    | false => simp [hn hrun]
    | true =>
      obtain ⟨h, _, hi⟩ := hr hrun
      simp [hi]
  · cases hrun : (run evs s0).isRunning with
    | false => simp [hn hrun]
    | true =>
      obtain ⟨h, _, hi⟩ := hr hrun
      simp [hi]
  · rw [run_append, run_append]
    exact startTimer_idem _

/-- Witness for C7: a first run, started and ticked once. -/
theorem single_tick_source_witness :
    boot (defaultSettings sampleLoadTime) none = some freshInstall ∧
    ((run [(1, Event.start), (2, Event.tick 0)] freshInstall).intervals.length ≤ 1 ∧
    ((run [(1, Event.start), (2, Event.tick 0)] freshInstall).intervals.length = 1 ↔
      (run [(1, Event.start), (2, Event.tick 0)] freshInstall).isRunning = true) ∧
    run ([(1, Event.start), (2, Event.tick 0)] ++ [(3, Event.start), (4, Event.start)])
        freshInstall
      = run ([(1, Event.start), (2, Event.tick 0)] ++ [(3, Event.start)]) freshInstall) :=
  ⟨rfl, single_tick_source (defaultSettings sampleLoadTime) none freshInstall
    [(1, Event.start), (2, Event.tick 0)] 3 4 rfl⟩

/-! ## A whole interval -/

set_option maxRecDepth 20000

/-- C2, as stated, fails: after the fourth FOCUS completion with auto-switch on
has scheduled the deferred start, `pause` is issued, and the deferred start
fires, the engine is running with a live interval timer. -/
theorem deferred_start_after_pause_runs :
    (step 7 (Event.tick 0) lastSecondOfFourthFocus).timeouts = 1 ∧
    (step 7 (Event.tick 0) lastSecondOfFourthFocus).isRunning = false ∧
    ¬ ((run pauseDuringDelay lastSecondOfFourthFocus).isRunning = false ∧
       (run pauseDuringDelay lastSecondOfFourthFocus).intervals = []) := by
  decide

/-- C2, amended: right after an auto-switch completion has scheduled the
deferred start the engine is not running, so a `pause` before the deferred
start fires changes nothing; when the deferred start then fires, the engine is
running with exactly one live interval timer, in the mode and with the
remaining seconds the switch has set. -/
theorem deferred_start_fires_after_noop_pause (now n1 n2 h : Nat) (s : Engine)
    (hinv : tickInv s) (hlive : h ∈ s.intervals) (hauto : s.autoSwitch = true)
    (hexp : s.currentTime - 1 ≤ 0) :
    (step now (Event.tick h) s).isRunning = false ∧
    (step now (Event.tick h) s).timeouts = s.timeouts + 1 ∧
    step n1 Event.pause (step now (Event.tick h) s) = step now (Event.tick h) s ∧
    (run [(now, Event.tick h), (n1, Event.pause), (n2, Event.deferredStart)] s).isRunning
      = true ∧
    (run [(now, Event.tick h), (n1, Event.pause), (n2, Event.deferredStart)] s).intervals
      = [s.nextHandle] ∧
    (run [(now, Event.tick h), (n1, Event.pause), (n2, Event.deferredStart)] s).timeouts
      = s.timeouts ∧
    (run [(now, Event.tick h), (n1, Event.pause), (n2, Event.deferredStart)] s).currentMode
      = (step now (Event.tick h) s).currentMode ∧
    (run [(now, Event.tick h), (n1, Event.pause), (n2, Event.deferredStart)] s).currentTime
      = (step now (Event.tick h) s).currentTime := by
  have hstep : step now (Event.tick h) s = intervalCallback now s := by
    simp [step, hlive]
  obtain ⟨hrun, hint, _, hnext⟩ := intervalCallback_expired now s hexp
  have hnil : (intervalCallback now s).intervals = [] :=
    hint.trans (clearInterval_intervals_of_tickInv s hinv)
  have htimeouts : (intervalCallback now s).timeouts = s.timeouts + 1 := by
    unfold intervalCallback
    by_cases hm : s.currentMode = Mode.FOCUS <;>
      by_cases h4 : (s.completedFocus + 1).tmod 4 = 0 <;>
      cases htid : s.timerId <;>
      simp [hexp, hm, hauto, h4, htid, switchMode, updateSettings, saveSettings,
        clearInterval]
  have hpause : step n1 Event.pause (intervalCallback now s) = intervalCallback now s := by
    simp [step, pauseTimer, hrun]
  have hall : run [(now, Event.tick h), (n1, Event.pause), (n2, Event.deferredStart)] s
      = startTimer { intervalCallback now s with timeouts := s.timeouts } := by
    simp only [run, List.foldl_cons, List.foldl_nil, hstep, hpause]
    simp [step, htimeouts]
  rw [hall, hstep]
  refine ⟨hrun, htimeouts, hpause, ?_, ?_, ?_, ?_, ?_⟩ <;>
    simp [startTimer, hrun, hnil, hnext]

/-- Witness for C2 amended: the fourth FOCUS completion of
`lastSecondOfFourthFocus`. -/
theorem deferred_start_fires_after_noop_pause_witness :
    tickInv lastSecondOfFourthFocus ∧ 0 ∈ lastSecondOfFourthFocus.intervals ∧
    lastSecondOfFourthFocus.autoSwitch = true ∧
    lastSecondOfFourthFocus.currentTime - 1 ≤ 0 ∧
    (run [(7, Event.tick 0), (8, Event.pause), (9, Event.deferredStart)]
      lastSecondOfFourthFocus).isRunning = true :=
  ⟨by simp [tickInv, lastSecondOfFourthFocus], by decide, rfl, by decide,
    (deferred_start_fires_after_noop_pause 7 8 9 0 lastSecondOfFourthFocus
      (by simp [tickInv, lastSecondOfFourthFocus]) (by decide) rfl
      (by decide)).2.2.2.1⟩

/-! ## Remaining seconds after a restart -/

/-- C3 fails on the code: on a first run, with auto-switch turned off and FOCUS
shortened to one minute, `start`, the 60 ticks of the interval, `start` again
and one more tick leave `currentTime = -1` (and count a second session). -/
theorem restart_after_completion_negative :
    boot (defaultSettings sampleLoadTime) none = some freshInstall ∧
    (run restartAfterCompletion freshInstall).currentTime = -1 ∧
    (run restartAfterCompletion freshInstall).completedFocus = 2 := by
  refine ⟨rfl, ?_, ?_⟩ <;> decide

/-! ## Write-through of the durable fields -/

theorem synced_updateSettings (now : Nat) (s : Engine) : synced (updateSettings now s) := by
  simp [synced, persisted, durable, updateSettings, saveSettings]

theorem synced_of_frame (s t : Engine) (hs : synced s) (hd : durable t = durable s)
    (hf : t.file = s.file) : synced t := by
  unfold synced persisted at *
  rw [hf, hd]
  exact hs

theorem intervalCallback_persists (now : Nat) (s : Engine)
    (h : s.currentTime - 1 ≤ 0 ∧ (s.currentMode = Mode.FOCUS ∨ s.autoSwitch = true)) :
    synced (intervalCallback now s) := by
  obtain ⟨hexp, hor⟩ := h
  unfold intervalCallback
  by_cases hm : s.currentMode = Mode.FOCUS <;>
    by_cases ha : s.autoSwitch = true <;>
    by_cases h4 : (s.completedFocus + 1).tmod 4 = 0 <;>
    cases htid : s.timerId <;>
    simp_all [synced, persisted, durable, switchMode, updateSettings, saveSettings,
      clearInterval]

theorem intervalCallback_no_write (now : Nat) (s : Engine)
    (h : ¬ (s.currentTime - 1 ≤ 0 ∧ (s.currentMode = Mode.FOCUS ∨ s.autoSwitch = true))) :
    durable (intervalCallback now s) = durable s ∧ (intervalCallback now s).file = s.file := by
  unfold intervalCallback
  by_cases hexp : s.currentTime - 1 ≤ 0
  · have hm : ¬ s.currentMode = Mode.FOCUS := fun hm => h ⟨hexp, Or.inl hm⟩
    have ha : ¬ s.autoSwitch = true := fun ha => h ⟨hexp, Or.inr ha⟩
    cases htid : s.timerId <;> simp [hexp, hm, ha, htid, durable, clearInterval]
  · simp [hexp, durable]

theorem intervalCallback_break_durable (now : Nat) (s : Engine)
    (hm : s.currentMode ≠ Mode.FOCUS) : durable (intervalCallback now s) = durable s := by
  unfold intervalCallback
  by_cases hexp : s.currentTime - 1 ≤ 0 <;> by_cases ha : s.autoSwitch = true <;>
    cases htid : s.timerId <;>
    simp [hexp, hm, ha, htid, durable, switchMode, updateSettings, saveSettings,
      clearInterval]

theorem synced_intervalCallback (now : Nat) (s : Engine) (hs : synced s) :
    synced (intervalCallback now s) := by
  by_cases h : s.currentTime - 1 ≤ 0 ∧ (s.currentMode = Mode.FOCUS ∨ s.autoSwitch = true)
  · exact intervalCallback_persists now s h
  · obtain ⟨hd, hf⟩ := intervalCallback_no_write now s h
    exact synced_of_frame s _ hs hd hf

theorem startTimer_durable (s : Engine) :
    durable (startTimer s) = durable s ∧ (startTimer s).file = s.file := by
  unfold startTimer
  cases hrun : s.isRunning <;> simp [durable]

theorem pauseTimer_durable (s : Engine) :
    durable (pauseTimer s) = durable s ∧ (pauseTimer s).file = s.file := by
  unfold pauseTimer
  cases hrun : s.isRunning <;> cases htid : s.timerId <;> simp [durable, clearInterval]

theorem resetTimer_durable (s : Engine) :
    durable (resetTimer s) = durable s ∧ (resetTimer s).file = s.file := by
  unfold resetTimer
  cases htid : s.timerId <;> simp [durable, clearInterval]

theorem synced_switchMode (now : Nat) (m : Mode) (r : Bool) (s : Engine) :
    synced (switchMode now m r s) := by
  unfold switchMode
  exact synced_updateSettings now _

theorem synced_step (now : Nat) (e : Event) (s : Engine) (hs : synced s) :
    synced (step now e s) := by
  cases e with
  | start => exact synced_of_frame s _ hs (startTimer_durable s).1 (startTimer_durable s).2
  | pause => exact synced_of_frame s _ hs (pauseTimer_durable s).1 (pauseTimer_durable s).2
  | tick h =>
    simp only [step]
    split_ifs
    · exact synced_intervalCallback now s hs
    · exact hs
  | deferredStart =>
    simp only [step]
    split_ifs
    · exact synced_of_frame s _ hs (startTimer_durable _).1 (startTimer_durable _).2
    · exact hs
  | switchMode m => exact synced_switchMode now m true s
  | resetTimer => exact synced_of_frame s _ hs (resetTimer_durable s).1 (resetTimer_durable s).2
  | resetToDefault => exact synced_updateSettings now _
  | changeDuration d => exact synced_updateSettings now _
  | toggleAutoSwitch => exact synced_updateSettings now _
  | clearStats => exact synced_updateSettings now _

theorem synced_run (evs : List (Nat × Event)) (s : Engine) (hs : synced s) :
    synced (run evs s) := by
  induction evs generalizing s with
  | nil => exact hs
  | cons e evs ih =>
    rw [run_cons]
    exact ih _ (synced_step e.1 e.2 s hs)

/-- C9, as stated, fails: `lastSecondOfBreak` is reached from a first run, its
settings file is in step with memory, and the tick that completes this
SHORT_BREAK interval (not a FOCUS completion) rewrites the settings file. -/
theorem break_completion_rewrites_file :
    run historyToLastSecondOfBreak freshInstall = lastSecondOfBreak ∧
    lastSecondOfBreak.currentMode = Mode.SHORT_BREAK ∧
    synced lastSecondOfBreak ∧
    (step 100 (Event.tick 0) lastSecondOfBreak).file ≠ lastSecondOfBreak.file := by
  decide

/-- C9, amended: `switchMode`, `changeDuration`, `resetToDefault`,
`toggleAutoSwitch`, `clearStats` and every tick that completes an interval in
FOCUS mode or with auto-switch on leave the settings file equal to memory on
durations, autoSwitch and completedFocus; `start`, `pause`, `resetTimer` and
every other tick change neither those fields in memory nor the file; a tick in
a break mode never changes the fields in memory; and once the file is in step
with memory it stays so along every history. -/
theorem persistence_write_through (now : Nat) (s : Engine) :
    (∀ m r, synced (switchMode now m r s)) ∧
    (∀ d, synced (changeDuration now d s)) ∧
    synced (resetToDefaultDuration now s) ∧
    synced (toggleAutoSwitch now s) ∧
    synced (clearStats now s) ∧
    ((s.currentTime - 1 ≤ 0 ∧ (s.currentMode = Mode.FOCUS ∨ s.autoSwitch = true)) →
      synced (intervalCallback now s)) ∧
    (durable (startTimer s) = durable s ∧ (startTimer s).file = s.file) ∧
    (durable (pauseTimer s) = durable s ∧ (pauseTimer s).file = s.file) ∧
    (durable (resetTimer s) = durable s ∧ (resetTimer s).file = s.file) ∧
    (¬ (s.currentTime - 1 ≤ 0 ∧ (s.currentMode = Mode.FOCUS ∨ s.autoSwitch = true)) →
      durable (intervalCallback now s) = durable s ∧ (intervalCallback now s).file = s.file) ∧
    (s.currentMode ≠ Mode.FOCUS → durable (intervalCallback now s) = durable s) ∧
    (∀ evs, synced s → synced (run evs s)) :=
  ⟨fun m r => synced_switchMode now m r s,
    fun _ => synced_updateSettings now _,
    synced_updateSettings now _,
    synced_updateSettings now _,
    synced_updateSettings now _,
    intervalCallback_persists now s,
    startTimer_durable s,
    pauseTimer_durable s,
    resetTimer_durable s,
    intervalCallback_no_write now s,
    intervalCallback_break_durable now s,
    fun evs hs => synced_run evs s hs⟩

end PomPom
